import Mathlib

/-!
Verification of the voice-ai restaurant reservation flow.

Shallow embedding of the conversational parsing, slot negotiation and
persistence logic of the repository:

* `frontend/src/voice.js` (second revision in the file, the one with locale
  support and the voice-driven slot fallback): `parseTimeText`,
  `parseNumberText`, `askUserToPickSlot`, the NLP-intent merge, the weather
  seating sub-dialogue and the 409-conflict negotiation of
  `startConversation`;
* `backend/routes/bookings.js`: `buildSlots`, the `/slots` partition into
  taken/available, and the in-memory `POST /` conflict check;
* the weather route's `decideSeatingFromWeatherObj`.

JS strings are modelled as `String`/`List Char`; JS `null` as `Option.none`;
JS string truthiness as emptiness tests; JS numbers appearing here are
non-negative integers (modelled as `Nat`) except the precipitation
probability, modelled as `Rat`.
-/

namespace VoiceAI

/-- Value of an ASCII digit character. -/
def dval (c : Char) : Nat := c.toNat - 48

/-- The apostrophe character (used in the "o'clock" literal of the source). -/
def apos : Char := Char.ofNat 39

/-- JS `String.prototype.trim`: strip whitespace from both ends. -/
def jsTrim (cs : List Char) : List Char :=
  ((cs.dropWhile Char.isWhitespace).reverse.dropWhile Char.isWhitespace).reverse

/-- JS `str.replace(pat, '')` with a *string* pattern: remove the first
occurrence of `pat` only. -/
def replaceFirst (pat : List Char) : List Char → List Char
  | [] => []
  | c :: rest =>
    if pat.isPrefixOf (c :: rest) then (c :: rest).drop pat.length
    else c :: replaceFirst pat rest

/-- JS `String.prototype.includes`: substring test. -/
def containsSub : List Char → List Char → Bool
  | [], pat => pat.isEmpty
  | c :: t, pat => pat.isPrefixOf (c :: t) || containsSub t pat

/-- JS `String(n).padStart(2, '0')` for `n < 100` (every call site in the
source feeds hours `< 100` and minutes `< 100`): the two decimal digits. -/
def pad2 (n : Nat) : String :=
  String.mk [Nat.digitChar (n / 10 % 10), Nat.digitChar (n % 10)]

/-- The character class `[:. ]` of `parseTimeText`'s first regex. -/
def isSepChar (c : Char) : Bool := c = ':' || c = '.' || c = ' '

/-- One attempt of the regex `(\d{1,2})[:. ](\d{2})` at the head of the list,
with the engine's greedy-then-backtrack order (two digits first). -/
def hhmmAt : List Char → Option (Nat × Nat)
  | c0 :: c1 :: c2 :: c3 :: c4 :: _ =>
    if c0.isDigit && c1.isDigit && isSepChar c2 && c3.isDigit && c4.isDigit then
      some (dval c0 * 10 + dval c1, dval c3 * 10 + dval c4)
    else if c0.isDigit && isSepChar c1 && c2.isDigit && c3.isDigit then
      some (dval c0, dval c2 * 10 + dval c3)
    else none
  | [c0, c1, c2, c3] =>
    if c0.isDigit && isSepChar c1 && c2.isDigit && c3.isDigit then
      some (dval c0, dval c2 * 10 + dval c3)
    else none
  | _ => none

/-- `t.match(/(\d{1,2})[:. ](\d{2})/)`: leftmost match. -/
def findHHMM : List Char → Option (Nat × Nat)
  | [] => none
  | c :: t =>
    match hhmmAt (c :: t) with
    | some r => some r
    | none => findHHMM t

/-- `t.match(/(\d{1,2})\s*(am|pm)?/)`: leftmost match; returns the hour value
and `some true` for a `pm` suffix, `some false` for `am`, `none` for neither. -/
def findSimple : List Char → Option (Nat × Option Bool)
  | [] => none
  | c :: t =>
    if c.isDigit then
      let hr : Nat × List Char :=
        match t with
        | c2 :: t2 => if c2.isDigit then (dval c * 10 + dval c2, t2) else (dval c, t)
        | [] => (dval c, [])
      let rest := hr.2.dropWhile Char.isWhitespace
      let ampm : Option Bool :=
        if List.isPrefixOf ['a', 'm'] rest then some false
        else if List.isPrefixOf ['p', 'm'] rest then some true
        else none
      some (hr.1, ampm)
    else findSimple t

/-- The literal "o'clock" stripped at the start of `parseTimeText`. -/
def oclockChars : List Char := ['o', apos, 'c', 'l', 'o', 'c', 'k']

/-- `parseTimeText` of `frontend/src/voice.js` (lines 702-721): lowercase,
drop "o'clock", trim; try `H:MM`/`H.MM`/`H MM` (am/pm adjusted by substring
search over the whole text), else a bare 1-2 digit hour with optional am/pm
suffix and minutes defaulted to `00`; else `null`. -/
def parseTimeText (text : String) : Option String :=
  let t := jsTrim (replaceFirst oclockChars (text.data.map Char.toLower))
  match findHHMM t with
  | some hm =>
    let hh1 := if containsSub t ['p', 'm'] && hm.1 < 12 then hm.1 + 12 else hm.1
    let hh2 := if containsSub t ['a', 'm'] && hh1 = 12 then 0 else hh1
    some (pad2 hh2 ++ ":" ++ pad2 hm.2)
  | none =>
    match findSimple t with
    | some ha =>
      let hh1 := if ha.2 = some true && ha.1 < 12 then ha.1 + 12 else ha.1
      let hh2 := if ha.2 = some false && hh1 = 12 then 0 else hh1
      some (pad2 hh2 ++ ":00")
    | none => none

/-- `parseTimeText(answers.bookingTime || "") || "19:00"` (line 986): the
time actually put into the payload. -/
def parsedTimeOf (raw : String) : String := (parseTimeText raw).getD "19:00"

/-- Devanagari digit substitution of `parseNumberText`. -/
def devanagariToAscii (c : Char) : Char :=
  if 0x966 ≤ c.toNat && c.toNat ≤ 0x96F then Nat.digitChar (c.toNat - 0x966) else c

/-- Decimal value of a digit run (JS `parseInt` on a digit string). -/
def digitsVal (ds : List Char) : Nat := ds.foldl (fun acc c => acc * 10 + dval c) 0

/-- `str.match(/\d+/)` followed by `parseInt`: value of the first maximal
ASCII digit run, if any. -/
def firstDigitRun : List Char → Option Nat
  | [] => none
  | c :: t =>
    if c.isDigit then some (digitsVal (c :: t.takeWhile Char.isDigit))
    else firstDigitRun t

/-- First cleanup regex of `parseNumberText`: `[,;]` to space. -/
def commaSemiToSpace (c : Char) : Char := if c = ',' || c = ';' then ' ' else c

/-- Second cleanup regex: any char outside `[0-9a-zऀ-ॿ\s\-]`
becomes a space. -/
def keepOrSpace (c : Char) : Char :=
  if c.isDigit || (97 ≤ c.toNat && c.toNat ≤ 122) ||
      (0x900 ≤ c.toNat && c.toNat ≤ 0x97F) || c.isWhitespace || c = '-' then c
  else ' '

/-- `t.split(/\s+/).filter(Boolean)`. -/
def splitWSAux : List Char → List Char → List String
  | [], acc => if acc.isEmpty then [] else [String.mk acc.reverse]
  | c :: t, acc =>
    if c.isWhitespace then
      if acc.isEmpty then splitWSAux t [] else String.mk acc.reverse :: splitWSAux t []
    else splitWSAux t (c :: acc)

/-- The English number-word table `engSmall` of `parseNumberText`. -/
def engSmall : List (String × Nat) :=
  [("zero", 0), ("one", 1), ("two", 2), ("three", 3), ("four", 4), ("five", 5),
   ("six", 6), ("seven", 7), ("eight", 8), ("nine", 9), ("ten", 10),
   ("eleven", 11), ("twelve", 12), ("thirteen", 13), ("fourteen", 14),
   ("fifteen", 15), ("sixteen", 16), ("seventeen", 17), ("eighteen", 18),
   ("nineteen", 19), ("twenty", 20), ("thirty", 30), ("forty", 40),
   ("fifty", 50), ("sixty", 60), ("seventy", 70), ("eighty", 80),
   ("ninety", 90), ("hundred", 100)]

/-- The Hindi number-word table `hinSmall` of `parseNumberText`. -/
def hinSmall : List (String × Nat) :=
  [("शून्य", 0), ("शुन्य", 0), ("एक", 1), ("दो", 2), ("दोण", 2), ("तीन", 3),
   ("चार", 4), ("पांच", 5), ("छह", 6), ("सात", 7), ("आठ", 8), ("नौ", 9),
   ("दस", 10), ("ग्यारह", 11), ("बारह", 12), ("तेरह", 13), ("चौदह", 14),
   ("पंद्रह", 15), ("सोलह", 16), ("सत्रह", 17), ("अठारह", 18), ("उन्नीस", 19),
   ("बीस", 20), ("तीस", 30), ("चालीस", 40), ("पचास", 50), ("साठ", 60),
   ("सत्तर", 70), ("अस्सी", 80), ("नब्बे", 90), ("सौ", 100)]

/-- Object-key lookup (`tbl[w] !== undefined`). -/
def tblLookup (tbl : List (String × Nat)) (w : String) : Option Nat :=
  (tbl.find? (fun p => p.1 == w)).map (fun p => p.2)

/-- The word-summing loop of `parseNumberText`: sums every matched word;
a tens word (`≥ 20`) immediately followed by a ones word (`< 10`) adds both
and stops. Returns the total and whether any word matched. -/
def wordLoop (tbl : List (String × Nat)) : List String → Nat × Bool
  | [] => (0, false)
  | [w] =>
    match tblLookup tbl w with
    | none => (0, false)
    | some v => (v, true)
  | w :: w2 :: rest =>
    match tblLookup tbl w with
    | none => wordLoop tbl (w2 :: rest)
    | some v =>
      if 20 ≤ v then
        match tblLookup tbl w2 with
        | some v2 =>
          if v2 < 10 then (v + v2, true)
          else (v + (wordLoop tbl (w2 :: rest)).1, true)
        | none => (v + (wordLoop tbl (w2 :: rest)).1, true)
      else (v + (wordLoop tbl (w2 :: rest)).1, true)

/-- The final fallback scan of `parseNumberText`: first word found in either
table (English table consulted first per word). -/
def firstSingle : List String → Option Nat
  | [] => none
  | w :: rest =>
    match tblLookup engSmall w with
    | some v => some v
    | none =>
      match tblLookup hinSmall w with
      | some v => some v
      | none => firstSingle rest

/-- `parseNumberText` of `frontend/src/voice.js` (lines 529-593): empty input
is `null`; Devanagari digits are transliterated, then the first digit run
wins; else English words, then Hindi words (`total || 1` on a zero total),
then a single-word fallback; else `null`. -/
def parseNumberText (text : String) : Option Nat :=
  if text = "" then none
  else
    let orig := jsTrim text.data
    let normalized := orig.map devanagariToAscii
    match firstDigitRun normalized with
    | some n => some n
    | none =>
      let t := jsTrim (((normalized.map Char.toLower).map commaSemiToSpace).map keepOrSpace)
      let parts := splitWSAux t []
      let eres := wordLoop engSmall parts
      if eres.2 then some (if eres.1 = 0 then 1 else eres.1)
      else
        let hres := wordLoop hinSmall parts
        if hres.2 then some (if hres.1 = 0 then 1 else hres.1)
        else firstSingle parts

/-- `if (isNaN(noGuests) || noGuests <= 0) noGuests = 1` over `Nat`. -/
def forcePos (n : Nat) : Nat := if n = 0 then 1 else n

/-- The guest-count normalization of `startConversation` (lines 987-992):
`parseNumberText(raw) || null`, then a raw digit match, then `1`; finally
anything non-positive is forced to `1`. -/
def noGuestsOf (raw : String) : Nat :=
  let g0 : Option Nat :=
    match parseNumberText raw with
    | some n => if n = 0 then none else some n
    | none => none
  let g1 : Nat :=
    match g0 with
    | some n => n
    | none =>
      match firstDigitRun raw.data with
      | some dd => dd
      | none => 1
  forcePos g1

/-- Lowercasing a whole string (JS `toLowerCase`, ASCII range; Devanagari has
no case and is untouched by both). -/
def lowerStr (s : String) : String := String.mk (s.data.map Char.toLower)

/-- JS regex word character `\w = [A-Za-z0-9_]`. -/
def isWordChar (c : Char) : Bool :=
  (97 ≤ c.toNat && c.toNat ≤ 122) || (65 ≤ c.toNat && c.toNat ≤ 90) || c.isDigit || c = '_'

/-- Word-ness of an optional character; out-of-string counts as non-word. -/
def optWord : Option Char → Bool
  | some c => isWordChar c
  | none => false

/-- JS regex `\bkw\b` search: an occurrence of `kw` whose two ends are word
boundaries (positions where word-ness changes, string ends being non-word). -/
def wbAux (kw : List Char) (prev : Option Char) : List Char → Bool
  | [] => false
  | c :: rest =>
    (kw.isPrefixOf (c :: rest) && (optWord prev != optWord (some c)) &&
      (optWord ((c :: rest).get? (kw.length - 1)) != optWord ((c :: rest).get? kw.length)))
    || wbAux kw (some c) rest

/-- `lower.match(/\b(k1|k2|...)\b/)` truthiness: some alternative matches with
word boundaries. -/
def wbAnyS (hay : List Char) (kws : List String) : Bool :=
  kws.any (fun k => wbAux k.data none hay)

/-- Alternatives of the first-slot ordinal regex of `askUserToPickSlot`. -/
def ordinalFirstWords : List String := ["first", "1st", "one", "पहला", "पहले"]

/-- Alternatives of the second-slot ordinal regex. -/
def ordinalSecondWords : List String := ["second", "2nd", "two", "दूसरा", "दूसरे"]

/-- Alternatives of the third-slot ordinal regex. -/
def ordinalThirdWords : List String := ["third", "3rd", "three", "तीसरा", "तीसरे"]

/-- JS `Number(str)` restricted to the strings that occur here: empty string
is `0`, a digit string is its value, anything else is NaN (`none`). -/
def jsNum (cs : List Char) : Option Nat :=
  if cs.isEmpty then some 0
  else if cs.all Char.isDigit then some (digitsVal cs) else none

/-- JS `String(n)` for `n < 100`: decimal digits without padding. -/
def natToDec (n : Nat) : List Char :=
  if n < 10 then [Nat.digitChar n] else [Nat.digitChar (n / 10 % 10), Nat.digitChar (n % 10)]

/-- `s.split(':')[0]` of a slot string. -/
def splitColonHead (s : String) : List Char := s.data.takeWhile (fun c => c ≠ ':')

/-- `String(Number(s.split(':')[0]) % 12)` in `askUserToPickSlot`'s final
substring loop. -/
def hourModStr (s : String) : List Char :=
  match jsNum (splitColonHead s) with
  | some h => natToDec (h % 12)
  | none => ['N', 'a', 'N']

/-- JS `s.slice(0, 5)`. -/
def slice5 (s : String) : String := String.mk (s.data.take 5)

/-- The final loop of `askUserToPickSlot`: direct substring of the slot, of
the slot without its colon, or of the slot's hour modulo 12. -/
def subMatch (pickResp : List Char) : List String → Option String
  | [] => none
  | s :: rest =>
    if containsSub pickResp s.data || containsSub pickResp (replaceFirst [':'] s.data) then
      some s
    else if containsSub pickResp (hourModStr s) then some s
    else subMatch pickResp rest

/-- `offeredSlots[i] || null`. -/
def elemOrNull (offered : List String) (i : Nat) : Option String :=
  match offered.get? i with
  | some s => if s = "" then none else some s
  | none => none

/-- `askUserToPickSlot` of `frontend/src/voice.js` (lines 786-833), with the
captured reply passed in for the `listenOnce()` result: try a direct time
parse matched exactly then by hour against the offered set; else the three
ordinal regexes in order (first, second, third); else substring/hour
matching; else `null`. -/
def askUserToPickSlot (offeredSlots : List String) (pickResp : String) : Option String :=
  if offeredSlots.isEmpty then none
  else if pickResp = "" then none
  else
    let fromTime : Option String :=
      match parseTimeText pickResp with
      | some parsed =>
        let norm := slice5 parsed
        if offeredSlots.contains norm then some norm
        else offeredSlots.find? (fun s => splitColonHead s == splitColonHead norm)
      | none => none
    match fromTime with
    | some r => some r
    | none =>
      let lower := pickResp.data.map Char.toLower
      if wbAnyS lower ordinalFirstWords then elemOrNull offeredSlots 0
      else if wbAnyS lower ordinalSecondWords then elemOrNull offeredSlots 1
      else if wbAnyS lower ordinalThirdWords then elemOrNull offeredSlots 2
      else subMatch pickResp.data offeredSlots

/-- Result of one `POST /api/bookings` as seen by the client. -/
inductive PostResp where
  | ok
  | conflict409
  | otherErr
deriving DecidableEq, Repr

/-- Terminal outcome of the saving phase of `startConversation`. -/
inductive Outcome where
  | confirmedFirst
  | confirmedRetry
  | noSlotsAvailable
  | noAlternatives
  | noValidPick
  | retryFailed
  | nonConflictError
deriving DecidableEq, Repr

/-- Outcome of the saving phase, the number of booking submissions issued,
and the alternative slot used by the retry, if any. -/
structure NegotiationResult where
  outcome : Outcome
  submissions : Nat
  retriedWith : Option String
deriving DecidableEq, Repr

/-- The booking-save and 409-conflict negotiation of `startConversation`
(lines 1039-1157): one submission; on 409 fetch `/slots`, offer up to three
alternatives other than the requested time, let the user pick, and retry at
most once; every other path (no slots data, empty availability, no
alternatives after filtering, unintelligible pick, failed retry, non-409
error) terminates with no further submission. -/
def negotiate (bookingTime : String) (firstResp : PostResp)
    (slotsAvailable : Option (List String)) (pickReply : String)
    (secondResp : PostResp) : NegotiationResult :=
  match firstResp with
  | .ok => ⟨.confirmedFirst, 1, none⟩
  | .conflict409 =>
    match slotsAvailable with
    | some avail =>
      if avail.length > 0 then
        let alternatives := (avail.filter (fun s => s != bookingTime)).take 3
        if alternatives.isEmpty then ⟨.noAlternatives, 1, none⟩
        else
          match askUserToPickSlot alternatives pickReply with
          | none => ⟨.noValidPick, 1, none⟩
          | some chosen =>
            match secondResp with
            | .ok => ⟨.confirmedRetry, 2, some chosen⟩
            | _ => ⟨.retryFailed, 2, some chosen⟩
      else ⟨.noSlotsAvailable, 1, none⟩
    | none => ⟨.noSlotsAvailable, 1, none⟩
  | .otherErr => ⟨.nonConflictError, 1, none⟩

/-- Body of a successful `GET /api/weather` response as the frontend reads
it: `seatingRecommendation`/`seatingPreference`/`weatherSummary`, with `""`
for an absent field. -/
structure WeatherData where
  seatingRecommendation : String
  seatingPreference : String
  weatherSummary : String
deriving DecidableEq, Repr

/-- Which suggestion sentence the orchestrator speaks before `bookingTime`. -/
inductive SuggestKind where
  | outdoorNice
  | indoorRain
  | unknownAskOutdoor
  | fetchFailAskIndoor
deriving DecidableEq, Repr

/-- `(w.seatingRecommendation || w.seatingPreference || '').toLowerCase()`. -/
def recOf (w : WeatherData) : String :=
  lowerStr (if w.seatingRecommendation ≠ "" then w.seatingRecommendation
            else w.seatingPreference)

/-- The weather suggestion step of `startConversation` (lines 884-899):
which question is asked and the working recommendation `rec` after the step.
`none` models a failed fetch (`weatherResp.ok` false or no data). -/
def weatherSuggest (resp : Option WeatherData) : SuggestKind × String :=
  match resp with
  | some w =>
    let r := recOf w
    if r = "outdoor" then (.outdoorNice, "outdoor")
    else if r = "indoor" then (.indoorRain, "indoor")
    else (.unknownAskOutdoor, "outdoor")
  | none => (.fetchFailAskIndoor, "indoor")

/-- The seating decision from the user's reply to the suggestion (lines
914-923): affirmative-and-not-negative confirms `rec` (with `rec || 'outdoor'`
for an unknown value), negative-and-not-affirmative flips it, anything else
leaves the preference null. -/
def dialogueSeat (affirmative negative : Bool) (recommended : String) : Option String :=
  if affirmative && !negative then
    some (if recommended = "outdoor" then "outdoor"
          else if recommended = "indoor" then "indoor"
          else if recommended = "" then "outdoor" else recommended)
  else if negative && !affirmative then
    some (if recommended = "outdoor" then "indoor"
          else if recommended = "indoor" then "outdoor" else "indoor")
  else none

/-- The per-step `answers` record of `startConversation`; `""` is an
unanswered field (JS falsy). -/
structure Answers where
  customerName : String
  numberOfGuests : String
  bookingDate : String
  bookingTime : String
  cuisinePreference : String
  specialRequests : String
  seatingPreference : String
deriving DecidableEq, Repr

/-- A parsed NLP intent as the frontend reads it (lines 946-952); `""` and
`none` are absent fields. -/
structure Intent where
  bookingDate : String
  bookingTime : String
  numberOfGuests : Option Nat
  cuisinePreference : String
  specialRequests : String
  seatingPreference : String
deriving DecidableEq, Repr

/-- One guard of the NLP merge: `if (intent.f && !answers.f) answers.f =
intent.f`. -/
def mergeField (cur nlp : String) : String :=
  if nlp ≠ "" && cur = "" then nlp else cur

/-- The guest-count guard of the NLP merge: a present numeric value (zero
included, by the `|| intent.numberOfGuests === 0` disjunct) fills an empty
answer, stringified. -/
def mergeGuests (cur : String) (g : Option Nat) : String :=
  match g with
  | some n => if cur = "" then toString n else cur
  | none => cur

/-- The seating guard (line 952): `if (intent.seatingPreference &&
!seatingPreferenceFromUser) seatingPreferenceFromUser = ...`. -/
def mergeSeatPref (spfu : Option String) (s : String) : Option String :=
  if s ≠ "" && spfu = none then some s else spfu

/-- The NLP-intent merge (lines 947-952): each answer field is filled from
the intent only when still empty; the intent's seating preference fills
`seatingPreferenceFromUser` only when that is still null. The source's
guards run sequentially but each one reads only the field it writes, so the
per-field form is the same function. -/
def mergeIntent (a : Answers) (spfu : Option String) (it : Intent) :
    Answers × Option String :=
  ({ a with
      bookingDate := mergeField a.bookingDate it.bookingDate,
      bookingTime := mergeField a.bookingTime it.bookingTime,
      numberOfGuests := mergeGuests a.numberOfGuests it.numberOfGuests,
      cuisinePreference := mergeField a.cuisinePreference it.cuisinePreference,
      specialRequests := mergeField a.specialRequests it.specialRequests },
   mergeSeatPref spfu it.seatingPreference)

/-- Folding the NLP merge over the intents interpreted after a given point
of the conversation. -/
def mergeAll (its : List Intent) (st : Answers × Option String) :
    Answers × Option String :=
  its.foldl (fun s it => mergeIntent s.1 s.2 it) st

/-- JS `x || y || null` on the seating strings (line 1012). -/
def jsOrStr (x : Option String) (y : String) : Option String :=
  match x with
  | some s => if s = "" then (if y = "" then none else some y) else some s
  | none => if y = "" then none else some y

/-- Seating preference reaching the submitted payload: the weather
sub-dialogue assigns `seatingPreferenceFromUser` unconditionally (discarding
`spfuBefore`, any NLP-derived value accumulated earlier), copies a non-null
choice into `answers.seatingPreference` (lines 925-927), later NLP merges may
only fill a null value, and the payload takes
`seatingPreferenceFromUser || answers.seatingPreference || null` (line 1012). -/
def sessionSeating (spfuBefore : Option String) (aff neg : Bool) (recommended : String)
    (intentsAfter : List Intent) (a : Answers) : Option String :=
  let _ := spfuBefore
  let spfu1 := dialogueSeat aff neg recommended
  let a1 := match spfu1 with
            | some s => { a with seatingPreference := s }
            | none => a
  let st := mergeAll intentsAfter (a1, spfu1)
  jsOrStr st.2 st.1.seatingPreference

/-- A forecast entry as `decideSeatingFromWeatherObj` reads it: an optional
precipitation probability and `(obj.weather[0].main || '')`. -/
structure ForecastObj where
  pop : Option Rat
  weatherMain : String
deriving DecidableEq, Repr

/-- `pop !== undefined && pop >= 0.3`. -/
def popHigh (p : Option Rat) : Bool :=
  match p with
  | some v => decide (mkRat 3 10 ≤ v)
  | none => false

/-- `w.includes('rain') || w.includes('thunder') || w.includes('snow') ||
w.includes('drizzle')` over the lowercased condition text. -/
def condIndoor (w : List Char) : Bool :=
  containsSub w "rain".data || containsSub w "thunder".data ||
    containsSub w "snow".data || containsSub w "drizzle".data

/-- `decideSeatingFromWeatherObj` of the weather route (model file lines
35-45): no object is indoor; high precipitation probability is indoor; a
condition text containing rain/thunder/snow/drizzle (case-insensitive) is
indoor; otherwise outdoor. -/
def decideSeatingFromWeatherObj (o : Option ForecastObj) : String :=
  match o with
  | none => "indoor"
  | some obj =>
    if popHigh obj.pop then "indoor"
    else if condIndoor (obj.weatherMain.data.map Char.toLower) then "indoor"
    else "outdoor"

/-- The seating rule in the spec's words (§4.2, for comparison with the
code): (1) precipitation probability present and `≥ 0.30` gives indoor;
(2) else a condition text containing any of rain, thunder, snow, drizzle
case-insensitively gives indoor; (3) else outdoor. -/
def recommendSeatingSpec (obj : ForecastObj) : String :=
  if popHigh obj.pop then "indoor"
  else if ["rain", "thunder", "snow", "drizzle"].any
      (fun k => containsSub (obj.weatherMain.data.map Char.toLower) k.data) then "indoor"
  else "outdoor"

/-- A booking-creation request body (`POST /api/bookings`); `""` models an
absent string field and `numberOfGuests = 0` a falsy guest count. -/
structure Payload where
  bookingId : String
  customerName : String
  numberOfGuests : Nat
  bookingDate : String
  bookingTime : String
  cuisinePreference : String
  specialRequests : String
  seatingPreference : String
deriving DecidableEq, Repr

/-- A record of the in-memory booking store. -/
structure StoredBooking where
  bookingId : String
  customerName : String
  numberOfGuests : Nat
  bookingDate : String
  bookingTime : String
  cuisinePreference : String
  specialRequests : String
  seatingPreference : String
  status : String
deriving DecidableEq, Repr

/-- The HTTP result of `POST /api/bookings`. -/
inductive PostOutcome where
  | created (b : StoredBooking)
  | conflict
  | missingFields
  | idExists
deriving DecidableEq, Repr

/-- `!bookingId || !customerName || !numberOfGuests || !bookingDate ||
!bookingTime`. -/
def missingRequired (p : Payload) : Bool :=
  p.bookingId == "" || p.customerName == "" || p.numberOfGuests == 0 ||
    p.bookingDate == "" || p.bookingTime == ""

/-- `POST /api/bookings` over the in-memory store (`backend/routes/
bookings.js` lines 175-301): validate, reject with 409 when some stored
booking has the same `bookingDate` and `bookingTime`, reject a duplicate
`bookingId` with 400, else append the booking (seating from the client when
non-blank after trimming, else from the weather fetch, else `'unknown'`) and
answer 201. `weatherSeating` is the `seatingPreference` produced by
`fetchWeatherForDate`. -/
def postBooking (store : List StoredBooking) (p : Payload) (weatherSeating : String) :
    PostOutcome × List StoredBooking :=
  if missingRequired p then (.missingFields, store)
  else if store.any (fun b => b.bookingDate == p.bookingDate && b.bookingTime == p.bookingTime) then
    (.conflict, store)
  else if store.any (fun b => b.bookingId == p.bookingId) then (.idExists, store)
  else
    let clientSeating : Option String :=
      if p.seatingPreference ≠ "" && String.mk (jsTrim p.seatingPreference.data) ≠ "" then
        some (lowerStr (String.mk (jsTrim p.seatingPreference.data)))
      else none
    let finalSeating : Option String :=
      match clientSeating with
      | some s => some s
      | none =>
        if weatherSeating ≠ "" then some (lowerStr (String.mk (jsTrim weatherSeating.data)))
        else none
    let stored : String :=
      match finalSeating with
      | some s => if s = "" then "unknown" else s
      | none => "unknown"
    let b : StoredBooking :=
      { bookingId := p.bookingId, customerName := p.customerName,
        numberOfGuests := p.numberOfGuests, bookingDate := p.bookingDate,
        bookingTime := p.bookingTime, cuisinePreference := p.cuisinePreference,
        specialRequests := p.specialRequests, seatingPreference := stored,
        status := "confirmed" }
    (.created b, store ++ [b])

/-- The slot-generation loop of `buildSlots` (`backend/routes/bookings.js`
lines 100-115) over minutes-of-day, with fuel for the `while (cur <= end)`
loop; `fuel = closeM + 1 - openM` dominates the iteration count for any
positive duration. -/
def buildSlotsAux : Nat → Nat → Nat → Nat → List Nat
  | 0, _, _, _ => []
  | fuel + 1, cur, closeM, dur =>
    if cur ≤ closeM then cur :: buildSlotsAux fuel (cur + dur) closeM dur else []

/-- Minutes-of-day slot grid from `openM` to `closeM` stepping `dur`. -/
def buildSlotsM (openM closeM dur : Nat) : List Nat :=
  buildSlotsAux (closeM + 1 - openM) openM closeM dur

/-- Zero-padded `HH:MM` of a minutes-of-day value (`getHours` wraps at 24,
as `% 24` does). -/
def fmtSlot (t : Nat) : String := pad2 (t / 60 % 24) ++ ":" ++ pad2 (t % 60)

/-- `buildSlots` as the route returns it: the `HH:MM` strings. -/
def buildSlots (openM closeM dur : Nat) : List String :=
  (buildSlotsM openM closeM dur).map fmtSlot

/-- `Array.from(new Set(xs))`: deduplicate keeping first occurrences. -/
def dedupAux : List String → List String → List String
  | [], _ => []
  | x :: t, seen => if seen.contains x then dedupAux t seen else x :: dedupAux t (x :: seen)

/-- The `taken` list of `GET /api/bookings/slots` (lines 119-129): times of
the date's bookings truncated to five characters, blanks dropped,
deduplicated. -/
def takenOf (store : List StoredBooking) (date : String) : List String :=
  dedupAux (((store.filter (fun b => b.bookingDate == date)).map
    (fun b => slice5 b.bookingTime)).filter (fun s => s != "")) []

/-- `available = allSlots.filter(s => !taken.includes(s))` (line 132). -/
def availableOf (allSlots taken : List String) : List String :=
  allSlots.filter (fun s => !(taken.contains s))

/-- The `(slots, taken, available)` triple of `GET /api/bookings/slots`. -/
def slotsResponse (store : List StoredBooking) (date : String)
    (openM closeM dur : Nat) : List String × List String × List String :=
  let allSlots := buildSlots openM closeM dur
  let taken := takenOf store date
  (allSlots, taken, availableOf allSlots taken)

theorem one_le_forcePos (n : Nat) : 1 ≤ forcePos n := by
  unfold forcePos
  split <;> omega

theorem condIndoor_eq_any (w : List Char) :
    condIndoor w =
      ["rain", "thunder", "snow", "drizzle"].any (fun k => containsSub w k.data) := by
  simp [condIndoor, List.any_cons, List.any_nil, Bool.or_assoc, Bool.or_false]

/-- C5: for every forecast record the seating recommendation follows the
spec's priority rule (high precipitation probability, then wet condition
text, then outdoor), and the three sample records decide as claimed. -/
theorem seating_rule_matches_spec :
    (∀ obj : ForecastObj, decideSeatingFromWeatherObj (some obj) = recommendSeatingSpec obj) ∧
    decideSeatingFromWeatherObj (some ⟨some (mkRat 3 10), "Clear"⟩) = "indoor" ∧
    decideSeatingFromWeatherObj (some ⟨some (mkRat 1 10), "Thunderstorm"⟩) = "indoor" ∧
    decideSeatingFromWeatherObj (some ⟨some (mkRat 1 10), "Clear"⟩) = "outdoor" := by
  refine ⟨fun obj => ?_, by decide, by decide, by decide⟩
  show (if popHigh obj.pop then "indoor"
        else if condIndoor (obj.weatherMain.data.map Char.toLower) then "indoor"
        else "outdoor") = recommendSeatingSpec obj
  unfold recommendSeatingSpec
  rw [condIndoor_eq_any]

/-- C8: number parsing handles compound English number words and Hindi
number words, rejects the empty transcript, and the normalized guest count
is always at least one. -/
theorem parse_number_rules :
    parseNumberText "twenty two guests" = some 22 ∧
    parseNumberText "तीन" = some 3 ∧
    parseNumberText "" = none ∧
    ∀ raw : String, 1 ≤ noGuestsOf raw := by
  refine ⟨by decide, by decide, by decide, fun raw => ?_⟩
  unfold noGuestsOf
  exact one_le_forcePos _

/-- C9: time parsing accepts `H:MM`/`H.MM` with am/pm handling (pm adds 12
below 12, 12am becomes 0), accepts a bare hour with minutes defaulted to
`00`, and every unparseable transcript falls back to `19:00`; in particular
"7 pm" is `19:00`. -/
theorem parse_time_rules :
    parseTimeText "7 pm" = some "19:00" ∧
    parseTimeText "7:30 pm" = some "19:30" ∧
    parseTimeText "7.15" = some "07:15" ∧
    parseTimeText "14:30 pm" = some "14:30" ∧
    parseTimeText "12 am" = some "00:00" ∧
    parseTimeText "12:45 am" = some "00:45" ∧
    parseTimeText "9 am" = some "09:00" ∧
    parseTimeText "10" = some "10:00" ∧
    ∀ raw : String, parseTimeText raw = none → parsedTimeOf raw = "19:00" := by
  refine ⟨by decide, by decide, by decide, by decide, by decide, by decide, by decide,
    by decide, fun raw h => ?_⟩
  unfold parsedTimeOf
  rw [h]
  rfl

theorem parse_time_rules_witness : parsedTimeOf "hello" = "19:00" :=
  parse_time_rules.2.2.2.2.2.2.2.2 "hello" (by decide)

/-- The payload `startConversation` builds when the spoken booking time was
"45" (all other fields as in the happy path). -/
def payload45 : Payload :=
  { bookingId := "bk-1", customerName := "Guest", numberOfGuests := 1,
    bookingDate := "2025-01-01", bookingTime := parsedTimeOf "45",
    cuisinePreference := "", specialRequests := "", seatingPreference := "" }

/-- C10: `parseTimeText` does no range validation: any bare two-digit reply
parses to `<digits>:00` even above 23, "45" gives "45:00", and the backend
stores that time unchanged. -/
theorem time_not_range_checked :
    parseTimeText "45" = some "45:00" ∧
    parsedTimeOf "45" = "45:00" ∧
    (∀ a : Nat, a < 10 → ∀ b : Nat, b < 10 →
      parseTimeText (String.mk [Nat.digitChar a, Nat.digitChar b]) =
        some (String.mk [Nat.digitChar a, Nat.digitChar b] ++ ":00")) ∧
    (postBooking [] payload45 "indoor").2 =
      [{ bookingId := "bk-1", customerName := "Guest", numberOfGuests := 1,
         bookingDate := "2025-01-01", bookingTime := "45:00",
         cuisinePreference := "", specialRequests := "",
         seatingPreference := "indoor", status := "confirmed" }] := by
  refine ⟨by decide, by decide, by decide, by decide⟩

theorem time_not_range_checked_witness :
    parseTimeText (String.mk [Nat.digitChar 4, Nat.digitChar 5]) =
      some (String.mk [Nat.digitChar 4, Nat.digitChar 5] ++ ":00") :=
  time_not_range_checked.2.2.1 4 (by decide) 5 (by decide)

/-- C7 counterexample: a weather response whose recommendation is neither
"indoor" nor "outdoor" (unknown) makes the orchestrator ask about *outdoor*
seating and carry recommendation "outdoor" (voice.js lines 893-894), not the
claimed conservative "indoor". -/
theorem weather_unknown_rec_asks_outdoor :
    recOf ⟨"", "", "cloudy"⟩ ≠ "indoor" ∧ recOf ⟨"", "", "cloudy"⟩ ≠ "outdoor" ∧
    weatherSuggest (some ⟨"", "", "cloudy"⟩) = (SuggestKind.unknownAskOutdoor, "outdoor") := by
  refine ⟨by decide, by decide, by decide⟩

/-- C7 amended: only a failed forecast fetch defaults the spoken suggestion
to indoor, phrased as a fallback; a response with an unknown recommendation
is instead turned into an outdoor suggestion. -/
theorem weather_fallback_rules :
    weatherSuggest none = (SuggestKind.fetchFailAskIndoor, "indoor") ∧
    (∀ w : WeatherData, recOf w ≠ "outdoor" → recOf w ≠ "indoor" →
      weatherSuggest (some w) = (SuggestKind.unknownAskOutdoor, "outdoor")) := by
  refine ⟨rfl, fun w h1 h2 => ?_⟩
  unfold weatherSuggest
  simp [h1, h2]

theorem weather_fallback_rules_witness :
    weatherSuggest (some ⟨"", "", "x"⟩) = (SuggestKind.unknownAskOutdoor, "outdoor") :=
  weather_fallback_rules.2 ⟨"", "", "x"⟩ (by decide) (by decide)

/-- C2: with alternatives 18:00/18:30/19:30 a reply of "the second one"
resolves to the *first* slot: the first-ordinal pattern
`\b(first|1st|one|...)\b` is tested before the second-ordinal pattern and
the word "one" matches it, so the retry is submitted with 18:00, not the
claimed 18:30; a plain "second" does resolve to 18:30. -/
theorem pick_second_one_returns_first_slot :
    askUserToPickSlot ["18:00", "18:30", "19:30"] "the second one" = some "18:00" ∧
    negotiate "19:00" PostResp.conflict409 (some ["18:00", "18:30", "19:30"])
      "the second one" PostResp.ok = ⟨Outcome.confirmedRetry, 2, some "18:00"⟩ ∧
    askUserToPickSlot ["18:00", "18:30", "19:30"] "second" = some "18:30" := by
  refine ⟨by decide, by decide, by decide⟩

theorem mergeField_keep (cur nlp : String) (h : cur ≠ "") : mergeField cur nlp = cur := by
  unfold mergeField
  simp [h]

theorem mergeGuests_keep (cur : String) (g : Option Nat) (h : cur ≠ "") :
    mergeGuests cur g = cur := by
  unfold mergeGuests
  cases g with
  | none => rfl
  | some n => simp [h]

theorem mergeSeatPref_keep (spfu : Option String) (s c : String) (h : spfu = some c) :
    mergeSeatPref spfu s = some c := by
  subst h
  unfold mergeSeatPref
  simp

theorem mergeAll_keeps_some (its : List Intent) :
    ∀ (a : Answers) (c : String), (mergeAll its (a, some c)).2 = some c := by
  induction its with
  | nil => intro a c; rfl
  | cons it rest ih =>
    intro a c
    show (mergeAll rest (mergeIntent a (some c) it)).2 = some c
    have hsnd : (mergeIntent a (some c) it).2 = some c := mergeSeatPref_keep _ _ c rfl
    have hp : mergeIntent a (some c) it = ((mergeIntent a (some c) it).1, some c) :=
      Prod.ext rfl hsnd
    rw [hp]
    exact ih _ c

theorem dialogueSeat_some_ne_empty (aff neg : Bool) (r c : String)
    (h : dialogueSeat aff neg r = some c) : c ≠ "" := by
  unfold dialogueSeat at h
  split at h
  · injection h with h
    subst h
    split_ifs with h1 h2 h3
    · decide
    · decide
    · decide
    · exact h3
  · split at h
    · injection h with h
      subst h
      split_ifs <;> decide
    · simp at h

theorem jsOrStr_some (c y : String) (h : c ≠ "") : jsOrStr (some c) y = some c := by
  unfold jsOrStr
  simp [h]

/-- C6: the NLP-intent merge never overwrites a populated answer field or a
non-null seating choice, and an explicit seating choice from the weather
sub-dialogue survives any earlier or later NLP-derived seating preference
into the submitted payload. -/
theorem intent_merge_no_overwrite :
    (∀ (a : Answers) (spfu : Option String) (it : Intent), a.bookingDate ≠ "" →
      ((mergeIntent a spfu it).1).bookingDate = a.bookingDate) ∧
    (∀ (a : Answers) (spfu : Option String) (it : Intent), a.bookingTime ≠ "" →
      ((mergeIntent a spfu it).1).bookingTime = a.bookingTime) ∧
    (∀ (a : Answers) (spfu : Option String) (it : Intent), a.numberOfGuests ≠ "" →
      ((mergeIntent a spfu it).1).numberOfGuests = a.numberOfGuests) ∧
    (∀ (a : Answers) (spfu : Option String) (it : Intent), a.cuisinePreference ≠ "" →
      ((mergeIntent a spfu it).1).cuisinePreference = a.cuisinePreference) ∧
    (∀ (a : Answers) (spfu : Option String) (it : Intent), a.specialRequests ≠ "" →
      ((mergeIntent a spfu it).1).specialRequests = a.specialRequests) ∧
    (∀ (a : Answers) (spfu : Option String) (it : Intent) (c : String), spfu = some c →
      (mergeIntent a spfu it).2 = some c) ∧
    (∀ (spfuBefore : Option String) (aff neg : Bool) (recommended : String)
        (its : List Intent) (a : Answers) (c : String),
      dialogueSeat aff neg recommended = some c →
      sessionSeating spfuBefore aff neg recommended its a = some c) := by
  refine ⟨?_, ?_, ?_, ?_, ?_, ?_, ?_⟩
  · intro a spfu it h
    exact mergeField_keep _ _ h
  · intro a spfu it h
    exact mergeField_keep _ _ h
  · intro a spfu it h
    exact mergeGuests_keep _ _ h
  · intro a spfu it h
    exact mergeField_keep _ _ h
  · intro a spfu it h
    exact mergeField_keep _ _ h
  · intro a spfu it c h
    exact mergeSeatPref_keep _ _ c h
  · intro spfu0 aff neg r its a c h
    simp only [sessionSeating, h]
    rw [mergeAll_keeps_some its { a with seatingPreference := c } c]
    exact jsOrStr_some c _ (dialogueSeat_some_ne_empty aff neg r c h)

theorem intent_merge_no_overwrite_witness :
    sessionSeating (some "indoor") true false "outdoor"
      [{ bookingDate := "", bookingTime := "", numberOfGuests := none,
         cuisinePreference := "", specialRequests := "", seatingPreference := "indoor" }]
      { customerName := "", numberOfGuests := "", bookingDate := "", bookingTime := "",
        cuisinePreference := "", specialRequests := "", seatingPreference := "" } =
      some "outdoor" :=
  intent_merge_no_overwrite.2.2.2.2.2.2 (some "indoor") true false "outdoor" _ _ "outdoor"
    (by decide)

/-- C3: the in-memory persistence boundary rejects, with a conflict and an
unchanged store, any valid booking request whose date and time match a
stored booking, and two requests for the same date and time can never both
be answered with a created booking. -/
theorem booking_slot_unique :
    (∀ (store : List StoredBooking) (p : Payload) (ws : String) (b : StoredBooking),
      missingRequired p = false → b ∈ store → b.bookingDate = p.bookingDate →
      b.bookingTime = p.bookingTime →
      postBooking store p ws = (PostOutcome.conflict, store)) ∧
    (∀ (store : List StoredBooking) (p q : Payload) (wsp wsq : String)
        (bp : StoredBooking) (sp : List StoredBooking),
      p.bookingDate = q.bookingDate → p.bookingTime = q.bookingTime →
      postBooking store p wsp = (PostOutcome.created bp, sp) →
      ∀ bq : StoredBooking, (postBooking sp q wsq).1 ≠ PostOutcome.created bq) := by
  constructor
  · intro store p ws b hval hb hd ht
    have hany : (store.any fun b2 =>
        b2.bookingDate == p.bookingDate && b2.bookingTime == p.bookingTime) = true := by
      rw [List.any_eq_true]
      exact ⟨b, hb, by rw [hd, ht]; simp⟩
    unfold postBooking
    rw [hval]
    simp [hany]
  · intro store p q wsp wsq bp sp hd ht hpost bq
    unfold postBooking at hpost
    split at hpost
    · simp at hpost
    · split at hpost
      · simp at hpost
      · split at hpost
        · simp at hpost
        · have h1 := congrArg Prod.fst hpost
          have h2' := congrArg Prod.snd hpost
          simp only at h1 h2'
          injection h1 with hbp
          have hbd : bp.bookingDate = p.bookingDate := by rw [← hbp]
          have hbt : bp.bookingTime = p.bookingTime := by rw [← hbp]
          rw [hbp] at h2'
          rw [← h2']
          unfold postBooking
          by_cases hq : missingRequired q = true
          · rw [if_pos hq]
            simp
          · rw [if_neg hq]
            have hany : ((store ++ [bp]).any fun b2 =>
                b2.bookingDate == q.bookingDate && b2.bookingTime == q.bookingTime) = true := by
              rw [List.any_eq_true]
              refine ⟨bp, List.mem_append_right _ (List.mem_singleton.mpr rfl), ?_⟩
              simp only [Bool.and_eq_true, beq_iff_eq]
              rw [hbd, hbt]
              exact ⟨hd, ht⟩
            simp [hany]

def storeC3 : List StoredBooking :=
  [{ bookingId := "b1", customerName := "A", numberOfGuests := 2,
     bookingDate := "2025-01-01", bookingTime := "19:00", cuisinePreference := "",
     specialRequests := "", seatingPreference := "indoor", status := "confirmed" }]

def payloadC3 : Payload :=
  { bookingId := "b2", customerName := "B", numberOfGuests := 3,
    bookingDate := "2025-01-01", bookingTime := "19:00", cuisinePreference := "",
    specialRequests := "", seatingPreference := "" }

theorem booking_slot_unique_witness :
    postBooking storeC3 payloadC3 "indoor" = (PostOutcome.conflict, storeC3) :=
  booking_slot_unique.1 storeC3 payloadC3 "indoor"
    { bookingId := "b1", customerName := "A", numberOfGuests := 2,
      bookingDate := "2025-01-01", bookingTime := "19:00", cuisinePreference := "",
      specialRequests := "", seatingPreference := "indoor", status := "confirmed" }
    (by decide) (by decide) rfl rfl

/-- C1: the saving phase never issues more than two submissions; a retry
whose second response is another conflict terminates as a failure after
exactly two submissions; when the availability list minus the conflicting
time is empty (or no slot data arrives) the session reports a terminal
no-alternatives failure after the single original submission, with no
retry. -/
theorem negotiation_single_retry :
    (∀ (bt : String) (fr : PostResp) (sa : Option (List String)) (pr : String)
        (sr : PostResp), (negotiate bt fr sa pr sr).submissions ≤ 2) ∧
    (∀ (bt pr : String) (avail : List String) (c : String),
      askUserToPickSlot ((avail.filter (fun s => s != bt)).take 3) pr = some c →
      negotiate bt PostResp.conflict409 (some avail) pr PostResp.conflict409 =
        ⟨Outcome.retryFailed, 2, some c⟩) ∧
    (∀ (bt pr : String) (avail : List String) (sr : PostResp),
      avail.filter (fun s => s != bt) = [] →
      ((negotiate bt PostResp.conflict409 (some avail) pr sr).outcome = Outcome.noAlternatives ∨
        (negotiate bt PostResp.conflict409 (some avail) pr sr).outcome =
          Outcome.noSlotsAvailable) ∧
      (negotiate bt PostResp.conflict409 (some avail) pr sr).submissions = 1 ∧
      (negotiate bt PostResp.conflict409 (some avail) pr sr).retriedWith = none) ∧
    (∀ (bt pr : String) (sr : PostResp),
      negotiate bt PostResp.conflict409 none pr sr = ⟨Outcome.noSlotsAvailable, 1, none⟩) := by
  refine ⟨?_, ?_, ?_, ?_⟩
  · intro bt fr sa pr sr
    rcases fr with _ | _ | _
    · simp [negotiate]
    · rcases sa with _ | avail
      · simp [negotiate]
      · simp only [negotiate]
        split
        · split
          · simp
          · rcases h : askUserToPickSlot ((avail.filter (fun s => s != bt)).take 3) pr with _ | c
            · simp
            · rcases sr with _ | _ | _ <;> simp
        · simp
    · simp [negotiate]
  · intro bt pr avail c h
    have hne : (avail.filter (fun s => s != bt)).take 3 ≠ [] := by
      intro he
      rw [he] at h
      simp [askUserToPickSlot] at h
    have hlen : avail.length > 0 := by
      rcases avail with _ | ⟨x, xs⟩
      · simp [askUserToPickSlot] at h
      · simp
    simp only [negotiate]
    rw [if_pos hlen, if_neg (by simpa [List.isEmpty_iff] using hne), h]
  · intro bt pr avail sr hfil
    have htake : (avail.filter (fun s => s != bt)).take 3 = [] := by
      rw [hfil]
      rfl
    by_cases hlen : avail.length > 0
    · have heq : negotiate bt PostResp.conflict409 (some avail) pr sr =
          ⟨Outcome.noAlternatives, 1, none⟩ := by
        simp only [negotiate]
        rw [if_pos hlen, if_pos (by simp [htake])]
      rw [heq]
      exact ⟨Or.inl rfl, rfl, rfl⟩
    · have heq : negotiate bt PostResp.conflict409 (some avail) pr sr =
          ⟨Outcome.noSlotsAvailable, 1, none⟩ := by
        simp only [negotiate]
        rw [if_neg hlen]
      rw [heq]
      exact ⟨Or.inr rfl, rfl, rfl⟩
  · intro bt pr sr
    rfl

theorem negotiation_single_retry_witness :
    negotiate "19:00" PostResp.conflict409 (some ["18:00", "18:30", "19:30"]) "second"
      PostResp.conflict409 = ⟨Outcome.retryFailed, 2, some "18:30"⟩ :=
  negotiation_single_retry.2.1 "19:00" "second" ["18:00", "18:30", "19:30"] "18:30" (by decide)

theorem buildSlotsAux_mem (fuel : Nat) :
    ∀ (cur closeM dur x : Nat), x ∈ buildSlotsAux fuel cur closeM dur →
      cur ≤ x ∧ x ≤ closeM := by
  induction fuel with
  | zero =>
    intro cur closeM dur x hx
    simp [buildSlotsAux] at hx
  | succ f ih =>
    intro cur closeM dur x hx
    unfold buildSlotsAux at hx
    split at hx
    case isTrue hc =>
      rcases List.mem_cons.mp hx with heq | hx2
      · subst heq
        exact ⟨Nat.le_refl _, hc⟩
      · have hr := ih (cur + dur) closeM dur x hx2
        exact ⟨Nat.le_trans (Nat.le_add_right cur dur) hr.1, hr.2⟩
    case isFalse hc =>
      simp at hx

theorem buildSlotsAux_pairwise (dur : Nat) (hdur : 1 ≤ dur) (fuel : Nat) :
    ∀ (cur closeM : Nat), List.Pairwise (· < ·) (buildSlotsAux fuel cur closeM dur) := by
  induction fuel with
  | zero =>
    intro cur closeM
    simp [buildSlotsAux]
  | succ f ih =>
    intro cur closeM
    unfold buildSlotsAux
    split
    · refine List.Pairwise.cons ?_ (ih (cur + dur) closeM)
      intro x hx
      have hmem := (buildSlotsAux_mem f (cur + dur) closeM dur x hx).1
      omega
    · exact List.Pairwise.nil

theorem digitChar_inj : ∀ a : Nat, a < 10 → ∀ b : Nat, b < 10 →
    Nat.digitChar a = Nat.digitChar b → a = b := by decide

theorem fmtSlot_data (t : Nat) : (fmtSlot t).data =
    [Nat.digitChar (t / 60 % 24 / 10 % 10), Nat.digitChar (t / 60 % 24 % 10), ':',
     Nat.digitChar (t % 60 / 10 % 10), Nat.digitChar (t % 60 % 10)] := rfl

theorem fmtSlot_inj (t1 t2 : Nat) (h1 : t1 < 1440) (h2 : t2 < 1440)
    (he : fmtSlot t1 = fmtSlot t2) : t1 = t2 := by
  have hd := congrArg String.data he
  rw [fmtSlot_data, fmtSlot_data] at hd
  simp only [List.cons.injEq, and_true] at hd
  obtain ⟨e1, e2, -, e3, e4⟩ := hd
  have g1 := digitChar_inj _ (by omega) _ (by omega) e1
  have g2 := digitChar_inj _ (by omega) _ (by omega) e2
  have g3 := digitChar_inj _ (by omega) _ (by omega) e3
  have g4 := digitChar_inj _ (by omega) _ (by omega) e4
  omega

theorem buildSlots_nodup (openM closeM dur : Nat) (hlt : closeM < 1440) (hdur : 1 ≤ dur) :
    (buildSlots openM closeM dur).Nodup := by
  have hpw : List.Pairwise (· < ·) (buildSlotsM openM closeM dur) :=
    buildSlotsAux_pairwise dur hdur _ openM closeM
  have hb : ∀ x ∈ buildSlotsM openM closeM dur, x ≤ closeM :=
    fun x hx => (buildSlotsAux_mem _ _ _ _ _ hx).2
  have hnd : (buildSlotsM openM closeM dur).Nodup :=
    hpw.imp (fun h => Nat.ne_of_lt h)
  exact hnd.map_on (fun x hx y hy hf =>
    fmtSlot_inj x y (by have := hb x hx; omega) (by have := hb y hy; omega) hf)

theorem available_disjoint_taken (allSlots taken : List String) :
    ∀ s, s ∈ availableOf allSlots taken → s ∉ taken := by
  intro s hs hmem
  unfold availableOf at hs
  rw [List.mem_filter] at hs
  have hc := hs.2
  simp at hc
  exact hc hmem

theorem allSlots_covered (allSlots taken : List String) :
    ∀ s ∈ allSlots, s ∈ availableOf allSlots taken ∨ s ∈ taken := by
  intro s hs
  by_cases h : s ∈ taken
  · exact Or.inr h
  · refine Or.inl ?_
    unfold availableOf
    rw [List.mem_filter]
    exact ⟨hs, by simp [h]⟩

theorem union_eq_of_taken_sub (allSlots taken : List String)
    (hsub : ∀ s ∈ taken, s ∈ allSlots) :
    ∀ s, (s ∈ availableOf allSlots taken ∨ s ∈ taken) ↔ s ∈ allSlots := by
  intro s
  constructor
  · rintro (h | h)
    · exact (List.mem_filter.mp h).1
    · exact hsub s h
  · intro h
    exact allSlots_covered allSlots taken s h

/-- C4 amended: for valid inputs the slot grid is strictly increasing with
no duplicate `HH:MM` strings, `available` and `taken` are disjoint, every
grid slot lands in `available` or `taken`, and the set equality
`available ∪ taken = allSlots` holds exactly under the extra assumption that
every taken time lies on the grid; stored bookings at off-grid times break
the unconditional equality. -/
theorem slots_partition (store : List StoredBooking) (date : String)
    (openM closeM dur : Nat) (hoc : openM ≤ closeM) (hlt : closeM < 1440)
    (hdur : 1 ≤ dur) :
    List.Pairwise (· < ·) (buildSlotsM openM closeM dur) ∧
    (buildSlots openM closeM dur).Nodup ∧
    (∀ s, s ∈ availableOf (buildSlots openM closeM dur) (takenOf store date) →
      s ∉ takenOf store date) ∧
    (∀ s ∈ buildSlots openM closeM dur,
      s ∈ availableOf (buildSlots openM closeM dur) (takenOf store date) ∨
        s ∈ takenOf store date) ∧
    ((∀ s ∈ takenOf store date, s ∈ buildSlots openM closeM dur) →
      ∀ s, (s ∈ availableOf (buildSlots openM closeM dur) (takenOf store date) ∨
          s ∈ takenOf store date) ↔ s ∈ buildSlots openM closeM dur) :=
  ⟨buildSlotsAux_pairwise dur hdur _ openM closeM,
   buildSlots_nodup openM closeM dur hlt hdur,
   available_disjoint_taken _ _,
   allSlots_covered _ _,
   fun hsub => union_eq_of_taken_sub _ _ hsub⟩

theorem slots_partition_witness : (buildSlots 660 1320 30).Nodup :=
  (slots_partition [] "2024-06-01" 660 1320 30 (by decide) (by decide) (by decide)).2.1

def storeC4 : List StoredBooking :=
  [{ bookingId := "b9", customerName := "C", numberOfGuests := 2,
     bookingDate := "2024-06-01", bookingTime := "19:05", cuisinePreference := "",
     specialRequests := "", seatingPreference := "indoor", status := "confirmed" }]

/-- C4 counterexample: with the default grid (open 11:00, close 22:00,
duration 30 — valid inputs) and one stored booking at the off-grid time
19:05, "19:05" is in `taken` but not in `allSlots`, so
`available ∪ taken = allSlots` fails as a set equality. -/
theorem slots_union_fails :
    660 ≤ 1320 ∧ (1320 : Nat) < 1440 ∧ (1 : Nat) ≤ 30 ∧
    "19:05" ∈ takenOf storeC4 "2024-06-01" ∧
    "19:05" ∉ buildSlots 660 1320 30 := by
  refine ⟨by decide, by decide, by decide, by decide, by decide⟩

end VoiceAI
